import Mathlib

/-!
Verification development for the point-to-point net device and the
global-routing router-ID allocator of the ns-3 fragment.

The device model is a shallow embedding of
`src/devices/p2p/p2p-net-device.cc`:

* pure C++ member functions become Lean functions on an explicit
  `PointToPointNetDevice` state record;
* `NS_ASSERT` / `NS_ASSERT_MSG` failures and null-pointer dereferences
  become `Except` errors (an error value means the simulation aborts);
* `Simulator::Schedule (dt, cb)` becomes an emitted `Event` carrying the
  absolute firing time `now + dt` (the kernel contract is
  `schedule(delay, cb)` fires at `now() + delay`);
* simulated time and data rates are exact rationals.

Collaborators whose implementation is not part of the provided sources
(`Queue`, `DataRate::CalculateTxTime`, the channel side of
`PointToPointChannel`, `RoutingEnvironment::AllocateRouterId`) are
modelled from the specification text and marked as such.
-/

namespace NS3

/-- Transmitter state machine state of `PointToPointNetDevice`
(`enum TxMachineState { READY, BUSY }`). -/
inductive TxMachineState where
  | READY
  | BUSY
deriving DecidableEq, Repr

/-- A packet: an opaque payload carrying a unique identifier
(`Packet::GetUid`) and a size in bytes (`Packet::GetSize`). -/
structure Packet where
  uid : Nat
  size : Nat
deriving DecidableEq, Repr

/-- Modelled from the spec: `DataRate` (its implementation is not among the
provided sources).  A bit rate in bits per second. -/
structure DataRate where
  bps : ℚ
deriving DecidableEq, Repr

/-- Modelled from the spec: `DataRate::CalculateTxTime` (implementation not
among the provided sources); the spec defines
`tx_time(bytes) = 8 * bytes / rate`, a duration in seconds. -/
def DataRate.CalculateTxTime (r : DataRate) (bytes : Nat) : ℚ :=
  (8 * (bytes : ℚ)) / r.bps

/-- Modelled from the spec: the `Queue` class (implementation not among the
provided sources).  A bounded (or unbounded) FIFO of packets with drop-tail
overflow policy: enqueue fails and drops when full, dequeue fails iff
empty. -/
structure Queue where
  maxLen : Option Nat
  items : List Packet
deriving DecidableEq, Repr

/-- Modelled from the spec: `Queue::Enqueue` returns `true` and appends at
the tail, or returns `false` (packet dropped) when the queue is full. -/
def Queue.Enqueue (q : Queue) (p : Packet) : Bool × Queue :=
  match q.maxLen with
  | none => (true, { q with items := q.items ++ [p] })
  | some m =>
      if q.items.length < m then (true, { q with items := q.items ++ [p] })
      else (false, q)

/-- Modelled from the spec: `Queue::Dequeue` returns the front packet and
the remaining queue, or `none` iff the queue is empty. -/
def Queue.Dequeue (q : Queue) : Option (Packet × Queue) :=
  match q.items with
  | [] => none
  | p :: rest => some (p, { q with items := rest })

/-- The `PointToPointChannel` as seen by the device: it publishes a
`DataRate` and a propagation `Delay`, and its `TransmitStart` result
depends on whether a peer device is attached.  The channel's own
implementation file is not among the provided sources, so the
device-visible surface is modelled from the spec. -/
structure PointToPointChannel where
  dataRate : DataRate
  delay : ℚ
  peerAttached : Bool
deriving DecidableEq, Repr

/-- `PointToPointChannel::GetDataRate`. -/
def PointToPointChannel.GetDataRate (c : PointToPointChannel) : DataRate :=
  c.dataRate

/-- `PointToPointChannel::GetDelay`. -/
def PointToPointChannel.GetDelay (c : PointToPointChannel) : ℚ :=
  c.delay

/-- Modelled from the spec: `PointToPointChannel::TransmitStart`
(implementation not among the provided sources) returns `true` iff a peer
is attached; delivery scheduling on the channel side is outside the
device model. -/
def PointToPointChannel.TransmitStart (c : PointToPointChannel)
    (_p : Packet) : Bool :=
  c.peerAttached

/-- Ways the embedded device code can abort the simulation: the two
`NS_ASSERT` checks in `SendTo` / `TransmitStart` / `TransmitComplete`, and
dereferencing a null `m_queue` or `m_channel` pointer. -/
inductive DevError where
  | assertLinkUp
  | assertMustBeReady
  | assertMustBeBusy
  | nullQueue
  | nullChannel
deriving DecidableEq, Repr

/-- A scheduled simulator event, carrying its absolute firing time.  The
device schedules only `TransmitComplete` callbacks on itself. -/
inductive Event where
  | transmitComplete (time : ℚ)
deriving DecidableEq, Repr

/-- The mutable state of a `PointToPointNetDevice`: transmitter state,
configured data rate and interframe gap, the attached channel and queue
pointers (null modelled as `none`), and the base class's link-up flag. -/
structure PointToPointNetDevice where
  m_txMachineState : TxMachineState
  m_bps : DataRate
  m_tInterframeGap : ℚ
  m_channel : Option PointToPointChannel
  m_queue : Option Queue
  m_linkUp : Bool
deriving DecidableEq, Repr

namespace PointToPointNetDevice

/-- The constructor `PointToPointNetDevice (node, rate)`: state `READY`,
data rate from the argument, zero interframe gap, null channel and queue
pointers, link down until `NotifyLinkUp`. -/
def mk0 (rate : DataRate) : PointToPointNetDevice :=
  { m_txMachineState := .READY
    m_bps := rate
    m_tInterframeGap := 0
    m_channel := none
    m_queue := none
    m_linkUp := false }

/-- `PointToPointNetDevice::SetDataRate`. -/
def SetDataRate (d : PointToPointNetDevice) (bps : DataRate) :
    PointToPointNetDevice :=
  { d with m_bps := bps }

/-- `PointToPointNetDevice::SetInterframeGap`. -/
def SetInterframeGap (d : PointToPointNetDevice) (t : ℚ) :
    PointToPointNetDevice :=
  { d with m_tInterframeGap := t }

/-- `PointToPointNetDevice::AddQueue`. -/
def AddQueue (d : PointToPointNetDevice) (q : Queue) :
    PointToPointNetDevice :=
  { d with m_queue := some q }

/-- `PointToPointNetDevice::Attach (ch)`: stores the channel pointer, lets
the channel record this device, copies the channel's data rate into
`m_bps` and the channel's delay into `m_tInterframeGap`, calls
`NotifyLinkUp` and returns `true`.  (The channel-side effect of
`m_channel->Attach (this)` is on the channel object and does not change
the device state.) -/
def Attach (d : PointToPointNetDevice) (ch : PointToPointChannel) :
    Bool × PointToPointNetDevice :=
  (true,
    { d with
      m_channel := some ch
      m_bps := ch.GetDataRate
      m_tInterframeGap := ch.GetDelay
      m_linkUp := true })

/-- `PointToPointNetDevice::TransmitStart (p)` at virtual time `now`:
asserts `m_txMachineState == READY`, moves to `BUSY`, computes
`txCompleteTime = CalculateTxTime (p.size) + m_tInterframeGap`, schedules
`TransmitComplete` after `txCompleteTime`, then calls
`m_channel->TransmitStart (p, this)` and returns its result. -/
def TransmitStart (d : PointToPointNetDevice) (now : ℚ) (p : Packet) :
    Except DevError (Bool × PointToPointNetDevice × List Event) :=
  if d.m_txMachineState ≠ .READY then .error .assertMustBeReady
  else
    let d1 := { d with m_txMachineState := TxMachineState.BUSY }
    let txCompleteTime := d1.m_bps.CalculateTxTime p.size + d1.m_tInterframeGap
    match d1.m_channel with
    | none => .error .nullChannel
    | some ch =>
        .ok (ch.TransmitStart p, d1,
             [Event.transmitComplete (now + txCompleteTime)])

/-- `PointToPointNetDevice::SendTo (p, dest)` at virtual time `now`:
asserts `IsLinkUp ()`; when `READY` starts transmitting immediately via
`TransmitStart`, otherwise enqueues on `m_queue` and returns the queue's
result.  The destination MAC is unused by the implementation. -/
def SendTo (d : PointToPointNetDevice) (now : ℚ) (p : Packet) :
    Except DevError (Bool × PointToPointNetDevice × List Event) :=
  if d.m_linkUp ≠ true then .error .assertLinkUp
  else if d.m_txMachineState = .READY then TransmitStart d now p
  else
    match d.m_queue with
    | none => .error .nullQueue
    | some q =>
        let r := q.Enqueue p
        .ok (r.1, { d with m_queue := some r.2 }, [])

/-- `PointToPointNetDevice::TransmitComplete ()` at virtual time `now`:
asserts `m_txMachineState == BUSY`, moves to `READY`, then dequeues from
`m_queue`; if the queue was empty it returns, otherwise it restarts
transmission of the dequeued packet via `TransmitStart` (whose boolean
result the C++ code discards). -/
def TransmitComplete (d : PointToPointNetDevice) (now : ℚ) :
    Except DevError (PointToPointNetDevice × List Event) :=
  if d.m_txMachineState ≠ .BUSY then .error .assertMustBeBusy
  else
    let d1 := { d with m_txMachineState := TxMachineState.READY }
    match d1.m_queue with
    | none => .error .nullQueue
    | some q =>
        match q.Dequeue with
        | none => .ok (d1, [])
        | some (p, q') =>
            match TransmitStart { d1 with m_queue := some q' } now p with
            | .error e => .error e
            | .ok (_, d2, evs) => .ok (d2, evs)

end PointToPointNetDevice

/-- A device together with the number of `TransmitComplete` callbacks that
are scheduled for it but have not yet fired.  This is the state observed
at the boundaries between public calls and scheduled callbacks (quiescent
states). -/
structure Sys where
  dev : PointToPointNetDevice
  pending : Nat
deriving DecidableEq, Repr

/-- One quiescent-state transition of a device under the spec's usage
contract: either the upper layer calls `SendTo` (and the call does not
abort), or one of the pending `TransmitComplete` callbacks fires (and does
not abort).  Each emitted `Event.transmitComplete` adds one pending
callback; a firing consumes one. -/
inductive SysStep : Sys → Sys → Prop where
  | sendTo (s : Sys) (now : ℚ) (p : Packet) (r : Bool)
      (d' : PointToPointNetDevice) (evs : List Event)
      (h : s.dev.SendTo now p = .ok (r, d', evs)) :
      SysStep s ⟨d', s.pending + evs.length⟩
  | complete (s : Sys) (now : ℚ)
      (d' : PointToPointNetDevice) (evs : List Event)
      (hp : 0 < s.pending)
      (h : s.dev.TransmitComplete now = .ok (d', evs)) :
      SysStep s ⟨d', s.pending - 1 + evs.length⟩

/-- The initial quiescent state of a freshly set-up device: constructed
with rate `rate`, given an empty queue of capacity `cap` via `AddQueue`,
then attached to channel `ch`; no callback is pending. -/
def initSys (rate : DataRate) (cap : Option Nat)
    (ch : PointToPointChannel) : Sys :=
  { dev := (((PointToPointNetDevice.mk0 rate).AddQueue
              ⟨cap, []⟩).Attach ch).2
    pending := 0 }

/-- A quiescent state reachable from the initial state by any interleaving
of `SendTo` calls and scheduled callbacks. -/
def Reachable (rate : DataRate) (cap : Option Nat)
    (ch : PointToPointChannel) (s : Sys) : Prop :=
  Relation.ReflTransGen SysStep (initSys rate cap ch) s

/-- The inductive invariant of the device state machine: the link stays
up, queue and channel pointers stay non-null, the number of pending
`TransmitComplete` callbacks is exactly one when `BUSY` and zero when
`READY`, and the queue is empty whenever the transmitter is `READY`. -/
def SysInv (s : Sys) : Prop :=
  s.dev.m_linkUp = true ∧
  (∃ q : Queue, s.dev.m_queue = some q ∧
    (s.dev.m_txMachineState = .READY → q.items = [])) ∧
  (∃ c : PointToPointChannel, s.dev.m_channel = some c) ∧
  s.pending = (if s.dev.m_txMachineState = .BUSY then 1 else 0)

/-- Modelled from the spec: `RoutingEnvironment::AllocateRouterId`, whose
implementation is not among the provided sources (the header
`global-router-interface.h` only documents it: router IDs are allocated
one per router, starting at `0.0.0.1` and incrementing with each
instantiation).  Router IDs are 32-bit values written as IPv4 addresses;
`0.0.0.1` is the numeric value 1.  The allocator state is the count of
routers created so far; allocation returns the new ID and the new state. -/
def AllocateRouterId (created : Nat) : Nat × Nat :=
  (created + 1, created + 1)

/-- The sequence of router IDs handed out by `n` successive router
constructions starting from allocator state `c`. -/
def allocRun : Nat → Nat → List Nat
  | 0, _ => []
  | n + 1, c =>
      let r := AllocateRouterId c
      r.1 :: allocRun n r.2

/-! ### Concrete instances used by the witnesses -/

/-- 10 Mb/s, the default point-to-point link data rate. -/
def rate0 : DataRate := ⟨10000000⟩

/-- A channel at 10 Mb/s with 2 ms propagation delay and a peer attached. -/
def chan0 : PointToPointChannel := ⟨rate0, 2 / 1000, true⟩

/-- A channel at 10 Mb/s with 2 ms propagation delay and no peer. -/
def chanNoPeer : PointToPointChannel := ⟨rate0, 2 / 1000, false⟩

/-- A freshly set-up device: constructed, queue of capacity 100 added,
attached to `chan0`. -/
def dev0 : PointToPointNetDevice := (initSys rate0 (some 100) chan0).dev

/-- A 1250-byte packet. -/
def pkt0 : Packet := ⟨1, 1250⟩

/-! ### Claim theorems -/

/-- C1: `Attach (ch)` records `ch` as the device's channel, copies the
channel's `DataRate` into the device's data-rate field `m_bps` and the
channel's propagation `Delay` into the device's corresponding local field
(`m_tInterframeGap`, the field `SetInterframeGap` sets), and marks the
link up and returns `true`. -/
theorem Attach_records_channel_copies_rate_delay_and_links_up
    (d : PointToPointNetDevice) (ch : PointToPointChannel) :
    (d.Attach ch).1 = true ∧
    (d.Attach ch).2.m_channel = some ch ∧
    (d.Attach ch).2.m_bps = ch.GetDataRate ∧
    (d.Attach ch).2.m_tInterframeGap = ch.GetDelay ∧
    (d.Attach ch).2.m_linkUp = true :=
  ⟨rfl, rfl, rfl, rfl, rfl⟩

/-- C2: for a device that may transmit (state `READY`, channel attached),
`TransmitStart (p)` at time `now` schedules the device's
`TransmitComplete` callback to fire exactly at
`now + txTime + interframeGap`, where
`txTime = m_bps.CalculateTxTime p.size` for the currently configured data
rate and interframe gap. -/
theorem TransmitStart_schedules_complete_at_now_txTime_ifg
    (d : PointToPointNetDevice) (now : ℚ) (p : Packet)
    (ch : PointToPointChannel)
    (hready : d.m_txMachineState = .READY)
    (hch : d.m_channel = some ch) :
    ∃ r d', d.TransmitStart now p = .ok (r, d',
      [Event.transmitComplete
        (now + d.m_bps.CalculateTxTime p.size + d.m_tInterframeGap)]) := by
  refine ⟨ch.TransmitStart p, { d with m_txMachineState := .BUSY }, ?_⟩
  simp [PointToPointNetDevice.TransmitStart, hready, hch, add_assoc]

/-- C2 witness: the freshly set-up 10 Mb/s device transmitting a
1250-byte packet at `now = 0`. -/
theorem TransmitStart_schedules_complete_witness :
    ∃ r d', dev0.TransmitStart 0 pkt0 = .ok (r, d',
      [Event.transmitComplete
        (0 + dev0.m_bps.CalculateTxTime pkt0.size + dev0.m_tInterframeGap)]) :=
  TransmitStart_schedules_complete_at_now_txTime_ifg dev0 0 pkt0 chan0 rfl rfl

/-- C3: with the link up, a queue present and a channel attached,
`SendTo (p, dest)` in state `READY` begins transmission immediately (its
result is exactly `TransmitStart (p)`'s) and returns the channel's
result; in state `BUSY` it enqueues `p`, returns the queue's `Enqueue`
result (`false` when the packet is dropped), and leaves the transmitter
state unchanged. -/
theorem SendTo_ready_transmits_busy_enqueues
    (d : PointToPointNetDevice) (now : ℚ) (p : Packet)
    (q : Queue) (ch : PointToPointChannel)
    (hup : d.m_linkUp = true)
    (hq : d.m_queue = some q)
    (hch : d.m_channel = some ch) :
    (d.m_txMachineState = .READY →
      d.SendTo now p = d.TransmitStart now p ∧
      ∃ d' evs, d.SendTo now p = .ok (ch.TransmitStart p, d', evs)) ∧
    (d.m_txMachineState = .BUSY →
      d.SendTo now p =
        .ok ((q.Enqueue p).1,
             { d with m_queue := some (q.Enqueue p).2 }, []) ∧
      ({ d with m_queue := some (q.Enqueue p).2 }).m_txMachineState
        = d.m_txMachineState) := by
  constructor
  · intro hready
    constructor
    · simp [PointToPointNetDevice.SendTo, hup, hready]
    · refine ⟨{ d with m_txMachineState := .BUSY },
        [Event.transmitComplete
          (now + (d.m_bps.CalculateTxTime p.size + d.m_tInterframeGap))], ?_⟩
      simp [PointToPointNetDevice.SendTo, PointToPointNetDevice.TransmitStart,
        hup, hready, hch]
  · intro hbusy
    have hnotready : d.m_txMachineState ≠ .READY := by
      rw [hbusy]; intro hcontra; cases hcontra
    exact ⟨by simp [PointToPointNetDevice.SendTo, hup, hnotready, hq], rfl⟩

/-- C3 witness: the freshly set-up device (state `READY`) sending a
1250-byte packet at `now = 0` returns the channel's result `true`. -/
theorem SendTo_ready_transmits_witness :
    ∃ d' evs, dev0.SendTo 0 pkt0 = .ok (chan0.TransmitStart pkt0, d', evs) :=
  ((SendTo_ready_transmits_busy_enqueues dev0 0 pkt0 ⟨some 100, []⟩ chan0
      rfl rfl rfl).1 rfl).2

/-- C4: `TransmitComplete` on a device in state `BUSY` (queue and channel
attached) either finds the queue empty, sets the state to `READY` and
stops, or finds the queue non-empty, dequeues exactly one packet and calls
`TransmitStart` on it, ending in state `BUSY`. -/
theorem TransmitComplete_empty_ready_else_dequeue_restart
    (d : PointToPointNetDevice) (now : ℚ) (q : Queue)
    (ch : PointToPointChannel)
    (hbusy : d.m_txMachineState = .BUSY)
    (hq : d.m_queue = some q)
    (hch : d.m_channel = some ch) :
    (q.items = [] →
      d.TransmitComplete now =
        .ok ({ d with m_txMachineState := .READY }, [])) ∧
    (∀ p rest, q.items = p :: rest →
      ∃ d' evs b,
        d.TransmitComplete now = .ok (d', evs) ∧
        d'.m_txMachineState = .BUSY ∧
        d'.m_queue = some { q with items := rest } ∧
        PointToPointNetDevice.TransmitStart
          { d with m_txMachineState := .READY,
                   m_queue := some { q with items := rest } } now p
          = .ok (b, d', evs)) := by
  have hnotready : d.m_txMachineState ≠ .READY := by
    rw [hbusy]; intro hcontra; cases hcontra
  constructor
  · intro hempty
    simp [PointToPointNetDevice.TransmitComplete, hbusy, hq,
      Queue.Dequeue, hempty]
  · intro p rest hcons
    refine ⟨{ d with m_txMachineState := .BUSY,
                     m_queue := some { q with items := rest } },
      [Event.transmitComplete
        (now + (d.m_bps.CalculateTxTime p.size + d.m_tInterframeGap))],
      ch.TransmitStart p, ?_, rfl, rfl, ?_⟩
    · simp [PointToPointNetDevice.TransmitComplete, hbusy, hq,
        Queue.Dequeue, hcons, PointToPointNetDevice.TransmitStart, hch]
    · simp [PointToPointNetDevice.TransmitStart, hch]

/-- C4 witness: a `BUSY` device with an empty queue goes back to `READY`
and stops. -/
theorem TransmitComplete_empty_ready_witness :
    PointToPointNetDevice.TransmitComplete
      { dev0 with m_txMachineState := .BUSY } 0 =
      .ok ({ { dev0 with m_txMachineState := .BUSY } with
              m_txMachineState := .READY }, []) :=
  (TransmitComplete_empty_ready_else_dequeue_restart
    { dev0 with m_txMachineState := .BUSY } 0 ⟨some 100, []⟩ chan0
    rfl rfl rfl).1 rfl

/-- C9: `TransmitStart` sets the state to `BUSY` and schedules the
`TransmitComplete` event before consulting the channel, so even when the
channel's `TransmitStart` returns `false` (no peer attached) the device
ends `BUSY` with a completion callback scheduled for the full transmit
time, and `SendTo` returns that `false` result. -/
theorem TransmitStart_busy_and_scheduled_even_on_channel_failure
    (d : PointToPointNetDevice) (now : ℚ) (p : Packet)
    (ch : PointToPointChannel)
    (hup : d.m_linkUp = true)
    (hready : d.m_txMachineState = .READY)
    (hch : d.m_channel = some ch)
    (hnopeer : ch.peerAttached = false) :
    d.TransmitStart now p =
      .ok (false, { d with m_txMachineState := .BUSY },
        [Event.transmitComplete
          (now + (d.m_bps.CalculateTxTime p.size + d.m_tInterframeGap))]) ∧
    d.SendTo now p = d.TransmitStart now p := by
  constructor
  · simp [PointToPointNetDevice.TransmitStart, hready, hch,
      PointToPointChannel.TransmitStart, hnopeer]
  · simp [PointToPointNetDevice.SendTo, hup, hready]

/-- C9 witness: a device attached to a channel with no peer: sending at
`now = 0` leaves the device `BUSY` with a completion event, result
`false`. -/
theorem TransmitStart_busy_on_channel_failure_witness :
    (initSys rate0 (some 100) chanNoPeer).dev.TransmitStart 0 pkt0 =
      .ok (false,
        { (initSys rate0 (some 100) chanNoPeer).dev with
            m_txMachineState := .BUSY },
        [Event.transmitComplete
          (0 + ((initSys rate0 (some 100) chanNoPeer).dev.m_bps.CalculateTxTime
                  pkt0.size
                + (initSys rate0 (some 100) chanNoPeer).dev.m_tInterframeGap))]) :=
  (TransmitStart_busy_and_scheduled_even_on_channel_failure
    (initSys rate0 (some 100) chanNoPeer).dev 0 pkt0 chanNoPeer
    rfl rfl rfl rfl).1

/-- C10: `SendTo` asserts only the link-up precondition, never
queue-presence: with the link up and `m_queue` null, `SendTo` in state
`BUSY` and `TransmitComplete` in state `BUSY` both dereference the null
queue pointer (modelled as the `nullQueue` abort) instead of failing an
assertion or returning `false`. -/
theorem SendTo_and_TransmitComplete_null_queue_deref
    (d : PointToPointNetDevice) (now : ℚ) (p : Packet)
    (hup : d.m_linkUp = true)
    (hbusy : d.m_txMachineState = .BUSY)
    (hnoq : d.m_queue = none) :
    d.SendTo now p = .error .nullQueue ∧
    d.TransmitComplete now = .error .nullQueue := by
  have hnotready : d.m_txMachineState ≠ .READY := by
    rw [hbusy]; intro hcontra; cases hcontra
  exact ⟨by simp [PointToPointNetDevice.SendTo, hup, hnotready, hnoq],
    by simp [PointToPointNetDevice.TransmitComplete, hbusy, hnoq]⟩

/-- C10 witness: a constructed device (null queue) with link up and
transmitter `BUSY`. -/
theorem SendTo_null_queue_deref_witness :
    PointToPointNetDevice.SendTo
      { PointToPointNetDevice.mk0 rate0 with
          m_txMachineState := .BUSY, m_linkUp := true } 0 pkt0
      = .error .nullQueue ∧
    PointToPointNetDevice.TransmitComplete
      { PointToPointNetDevice.mk0 rate0 with
          m_txMachineState := .BUSY, m_linkUp := true } 0
      = .error .nullQueue :=
  SendTo_and_TransmitComplete_null_queue_deref
    { PointToPointNetDevice.mk0 rate0 with
        m_txMachineState := .BUSY, m_linkUp := true } 0 pkt0 rfl rfl rfl

/-- The IDs allocated by `n` router constructions from allocator state `c`
are `[c+1, c+2, ..., c+n]`. -/
theorem allocRun_eq_range' (n : Nat) :
    ∀ c : Nat, allocRun n c = List.range' (c + 1) n := by
  induction n with
  | zero => intro c; rfl
  | succ m ih =>
      intro c
      simp [allocRun, AllocateRouterId, List.range'_succ, ih (c + 1),
        Nat.add_assoc, Nat.add_comm 1 1]

/-- C8: router IDs are allocated in creation order starting at `0.0.0.1`
(numeric value 1) and incrementing by one per router, so within a run the
sequence of allocated IDs is exactly `[1, 2, ..., n]`: dense, strictly
monotonic, and unique. -/
theorem routerIds_dense_monotonic_unique (n : Nat) :
    allocRun n 0 = List.range' 1 n ∧
    List.Pairwise (· < ·) (allocRun n 0) ∧
    (allocRun n 0).Nodup := by
  have h := allocRun_eq_range' n 0
  refine ⟨h, ?_, ?_⟩
  · rw [h]; exact List.pairwise_lt_range' 1 n
  · rw [h]; exact List.nodup_range' 1 n

/-- The initial quiescent state satisfies the device invariant. -/
theorem sysInv_init (rate : DataRate) (cap : Option Nat)
    (ch : PointToPointChannel) : SysInv (initSys rate cap ch) :=
  ⟨rfl, ⟨⟨cap, []⟩, rfl, fun _ => rfl⟩, ⟨ch, rfl⟩, rfl⟩

/-- The device invariant is preserved by every quiescent-state
transition. -/
theorem sysInv_step {s s' : Sys} (hinv : SysInv s) (hstep : SysStep s s') :
    SysInv s' := by
  obtain ⟨hup, ⟨q, hq, hqe⟩, ⟨c, hc⟩, hpend⟩ := hinv
  cases hstep with
  | sendTo now p r d' evs h =>
      rcases htx : s.dev.m_txMachineState with _ | _
      · -- READY: SendTo runs TransmitStart, device goes BUSY, one event
        simp [PointToPointNetDevice.SendTo,
          PointToPointNetDevice.TransmitStart, hup, htx, hc] at h
        obtain ⟨-, hd', hevs⟩ := h
        subst hd' hevs
        exact ⟨by simp [hup], ⟨q, by simp [hq], fun hr => by simp at hr⟩,
          ⟨c, by simp [hc]⟩, by simp [hpend, htx]⟩
      · -- BUSY: SendTo enqueues, state and pending count unchanged
        simp [PointToPointNetDevice.SendTo, hup, htx, hq] at h
        obtain ⟨-, hd', hevs⟩ := h
        subst hd' hevs
        exact ⟨by simp [hup], ⟨(q.Enqueue p).2, by simp,
            fun hr => by simp at hr⟩,
          ⟨c, by simp [hc]⟩, by simp [hpend, htx]⟩
  | complete now d' evs hp h =>
      have htx : s.dev.m_txMachineState = .BUSY := by
        rcases htx : s.dev.m_txMachineState with _ | _
        · rw [hpend, if_neg (by simp [htx])] at hp; omega
        · rfl
      rcases hitems : q.items with _ | ⟨p, rest⟩
      · -- queue empty: back to READY, no new event
        simp [PointToPointNetDevice.TransmitComplete, htx, hq,
          Queue.Dequeue, hitems] at h
        obtain ⟨hd', hevs⟩ := h
        subst hd' hevs
        exact ⟨by simp [hup], ⟨q, by simp [hq], fun _ => hitems⟩,
          ⟨c, by simp [hc]⟩, by simp [hpend, htx]⟩
      · -- queue non-empty: dequeue and restart, still BUSY, one new event
        simp [PointToPointNetDevice.TransmitComplete, htx, hq,
          Queue.Dequeue, hitems, PointToPointNetDevice.TransmitStart,
          hc] at h
        obtain ⟨hd', hevs⟩ := h
        subst hd' hevs
        exact ⟨by simp [hup], ⟨{ q with items := rest }, by simp,
            fun hr => by simp at hr⟩,
          ⟨c, by simp [hc]⟩, by simp [hpend, htx]⟩

/-- Every reachable quiescent state satisfies the device invariant. -/
theorem reachable_sysInv {rate : DataRate} {cap : Option Nat}
    {ch : PointToPointChannel} {s : Sys}
    (h : Reachable rate cap ch s) : SysInv s := by
  induction h with
  | refl => exact sysInv_init rate cap ch
  | tail _ hstep ih => exact sysInv_step ih hstep

/-- C5: in every reachable quiescent state, if the transmitter is `READY`
then the attached queue is empty; and the invariant is re-established at
the end of every `TransmitComplete`: whenever `TransmitComplete` returns
from a reachable state with the device back in `READY`, the queue is
empty. -/
theorem ready_implies_queue_empty
    (rate : DataRate) (cap : Option Nat) (ch : PointToPointChannel)
    (s : Sys)
    (hreach : Reachable rate cap ch s) :
    (s.dev.m_txMachineState = .READY →
      ∃ q : Queue, s.dev.m_queue = some q ∧ q.items = []) ∧
    (∀ now d' evs, s.dev.TransmitComplete now = .ok (d', evs) →
      d'.m_txMachineState = .READY →
      ∃ q : Queue, d'.m_queue = some q ∧ q.items = []) := by
  obtain ⟨hup, ⟨q, hq, hqe⟩, ⟨c, hc⟩, hpend⟩ := reachable_sysInv hreach
  constructor
  · intro hready; exact ⟨q, hq, hqe hready⟩
  · intro now d' evs h hready
    have htx : s.dev.m_txMachineState = .BUSY := by
      rcases htx : s.dev.m_txMachineState with _ | _
      · simp [PointToPointNetDevice.TransmitComplete, htx] at h
      · rfl
    have hstep : SysStep s ⟨d', s.pending - 1 + evs.length⟩ :=
      SysStep.complete s now d' evs (by rw [hpend, if_pos htx]; omega) h
    obtain ⟨-, ⟨q', hq', hqe'⟩, -, -⟩ :=
      sysInv_step (⟨hup, ⟨q, hq, hqe⟩, ⟨c, hc⟩, hpend⟩ : SysInv s) hstep
    exact ⟨q', hq', hqe' hready⟩

/-- C5 witness: the invariant holds in the initial quiescent state of a
freshly set-up device. -/
theorem ready_implies_queue_empty_witness :
    ∃ q : Queue, (initSys rate0 (some 100) chan0).dev.m_queue = some q ∧
      q.items = [] :=
  (ready_implies_queue_empty rate0 (some 100) chan0 _
    Relation.ReflTransGen.refl).1 rfl

/-- C7: in every state reachable by any interleaving of `SendTo` calls
and scheduled callbacks, the number of `TransmitComplete` callbacks
scheduled for the device but not yet fired is at most one. -/
theorem pending_transmitComplete_at_most_one
    (rate : DataRate) (cap : Option Nat) (ch : PointToPointChannel)
    (s : Sys)
    (hreach : Reachable rate cap ch s) : s.pending ≤ 1 := by
  obtain ⟨-, -, -, hpend⟩ := reachable_sysInv hreach
  rw [hpend]; split <;> omega

/-- C7 witness: the initial quiescent state has no pending callback,
hence at most one. -/
theorem pending_transmitComplete_at_most_one_witness :
    (initSys rate0 (some 100) chan0).pending ≤ 1 :=
  pending_transmitComplete_at_most_one rate0 (some 100) chan0 _
    Relation.ReflTransGen.refl

/-- C6: `SendTo` on a device whose link is down aborts via the
`IsLinkUp` assertion, and `TransmitStart` on a device in state `BUSY`
aborts via the `READY` assertion; and under the usage contract (only
`SendTo` calls and pending-callback firings on a properly set-up device)
these assertion branches are unreachable: from every reachable quiescent
state, `SendTo` returns normally and, whenever a callback is pending,
`TransmitComplete` returns normally. -/
theorem contract_violations_assert_and_are_unreachable
    (rate : DataRate) (cap : Option Nat) (ch : PointToPointChannel)
    (s : Sys) (dDown dBusy : PointToPointNetDevice)
    (now : ℚ) (p : Packet)
    (hreach : Reachable rate cap ch s)
    (hdown : dDown.m_linkUp = false)
    (hbusy : dBusy.m_txMachineState = .BUSY) :
    dDown.SendTo now p = .error .assertLinkUp ∧
    dBusy.TransmitStart now p = .error .assertMustBeReady ∧
    (∃ out, s.dev.SendTo now p = .ok out) ∧
    (0 < s.pending → ∃ out, s.dev.TransmitComplete now = .ok out) := by
  obtain ⟨hup, ⟨q, hq, hqe⟩, ⟨c, hc⟩, hpend⟩ := reachable_sysInv hreach
  refine ⟨?_, ?_, ?_, ?_⟩
  · simp [PointToPointNetDevice.SendTo, hdown]
  · simp [PointToPointNetDevice.TransmitStart, hbusy]
  · rcases htx : s.dev.m_txMachineState with _ | _
    · have heq : s.dev.SendTo now p =
          .ok (c.TransmitStart p, { s.dev with m_txMachineState := .BUSY },
            [Event.transmitComplete
              (now + (s.dev.m_bps.CalculateTxTime p.size
                + s.dev.m_tInterframeGap))]) := by
        simp [PointToPointNetDevice.SendTo,
          PointToPointNetDevice.TransmitStart, hup, htx, hc]
      exact ⟨_, heq⟩
    · have heq : s.dev.SendTo now p =
          .ok ((q.Enqueue p).1,
            { s.dev with m_queue := some (q.Enqueue p).2 }, []) := by
        simp [PointToPointNetDevice.SendTo, hup, htx, hq]
      exact ⟨_, heq⟩
  · intro hp
    have htx : s.dev.m_txMachineState = .BUSY := by
      rcases htx : s.dev.m_txMachineState with _ | _
      · rw [hpend, if_neg (by simp [htx])] at hp; omega
      · rfl
    rcases hitems : q.items with _ | ⟨p', rest⟩
    · have heq : s.dev.TransmitComplete now =
          .ok ({ s.dev with m_txMachineState := .READY,
                            m_queue := some q }, []) := by
        simp [PointToPointNetDevice.TransmitComplete, htx, hq,
          Queue.Dequeue, hitems]
      exact ⟨_, heq⟩
    · have heq : s.dev.TransmitComplete now =
          .ok ({ s.dev with m_txMachineState := .BUSY,
                            m_queue := some { q with items := rest } },
            [Event.transmitComplete
              (now + (s.dev.m_bps.CalculateTxTime p'.size
                + s.dev.m_tInterframeGap))]) := by
        simp [PointToPointNetDevice.TransmitComplete, htx, hq,
          Queue.Dequeue, hitems, PointToPointNetDevice.TransmitStart, hc]
      exact ⟨_, heq⟩

/-- C6 witness: a link-down device's `SendTo` and a `BUSY` device's
`TransmitStart` both abort, while `SendTo` from the initial quiescent
state returns normally. -/
theorem contract_violations_assert_witness :
    (PointToPointNetDevice.mk0 rate0).SendTo 0 pkt0
      = .error .assertLinkUp ∧
    PointToPointNetDevice.TransmitStart
      { dev0 with m_txMachineState := .BUSY } 0 pkt0
      = .error .assertMustBeReady ∧
    (∃ out, (initSys rate0 (some 100) chan0).dev.SendTo 0 pkt0
      = .ok out) := by
  have h := contract_violations_assert_and_are_unreachable rate0 (some 100)
    chan0 (initSys rate0 (some 100) chan0) (PointToPointNetDevice.mk0 rate0)
    { dev0 with m_txMachineState := .BUSY } 0 pkt0
    Relation.ReflTransGen.refl rfl rfl
  exact ⟨h.1, h.2.1, h.2.2.1⟩

end NS3
